import Mathlib

/-!
Shallow embedding of the three-forma-styli design-token compiler core:
the per-family token generators, the input validator, the orchestrator
`generate`, and the CSS transformer `toCss`
(src/packages/core/src/generator/*.ts, src/packages/core/src/transformers/css.ts
and their copies under src/unnamed/).

Modelling conventions:
* JS numbers are embedded as `ℚ` (all arithmetic the generators perform is
  exact on the rationals the configurations carry).
* JS objects used as ordered string-keyed maps (`Record<string, T>`,
  iterated with `Object.entries`) are embedded as insertion-ordered
  association lists `List (String × T)`; assigning to an existing key keeps
  its position and replaces the value (`recInsert`).
* Optional JS fields are `Option`; a JS function that would throw on
  `undefined` (e.g. indexing an empty mode list) returns `none`.
* `generate` returns `Except String IR`: `Except.error` models a thrown
  `ValidationError` carrying its message.
-/

set_option allowUnsafeReducibility true in
attribute [semireducible] Rat.mul Rat.add Rat.sub Rat.inv Rat.ofScientific

deriving instance DecidableEq for Except

namespace TFS

/-- Decimal digits of the fractional part `r/d` (`0 < r < d`), fuel-bounded.
Models how ECMAScript prints the fractional part of a number whose decimal
expansion terminates (the only numbers the repository renders). -/
def fracDigits : Nat → Nat → Nat → List Char
  | 0, _, _ => []
  | _ + 1, 0, _ => []
  | fuel + 1, r, d =>
    let r10 := r * 10
    Nat.digitChar (r10 / d) :: fracDigits fuel (r10 % d) d

/-- Rendering of a rational as ECMAScript renders the corresponding number
(template-literal interpolation `${value}`): integers print without a dot,
terminating decimals print their exact expansion. -/
def ratToString (q : ℚ) : String :=
  let sgn := if q < 0 then "-" else ""
  let n := q.num.natAbs
  let d := q.den
  let ip := n / d
  let fr := n % d
  if fr = 0 then sgn ++ toString ip
  else sgn ++ toString ip ++ "." ++ String.mk (fracDigits 40 fr d)

/-- The four decimal digits of `fp < 10000`, zero-padded
(the fractional digits produced by `Number.prototype.toFixed(4)`). -/
def pad4 (fp : Nat) : List Char :=
  [Nat.digitChar (fp / 1000 % 10), Nat.digitChar (fp / 100 % 10),
   Nat.digitChar (fp / 10 % 10), Nat.digitChar (fp % 10)]

/-- The fractional digits of `toFixed(4)` with trailing zeros removed,
as the regex replacement `.replace(/\.?0+$/, '')` leaves them. -/
def strippedFrac (fp : Nat) : List Char :=
  ((pad4 fp).reverse.dropWhile (fun c => c == '0')).reverse

/-- `formatNumber` from the typography generator:
`value.toFixed(4).replace(/\.?0+$/, '')`.
`toFixed(4)` picks the integer `n` with `n / 10^4` closest to the value,
ties to the larger `n` (ECMA-262), i.e. `⌊|q|·10^4 + 1/2⌋` on the absolute
value with the sign re-attached; the regex then strips trailing zeros of the
fractional part, and the decimal point too when they were all zeros. -/
def formatNumber (q : ℚ) : String :=
  let sgn := if q < 0 then "-" else ""
  let n := (⌊|q| * 10000 + 1 / 2⌋).toNat
  let ip := n / 10000
  let fp := n % 10000
  let frac := strippedFrac fp
  if frac.isEmpty then sgn ++ toString ip
  else sgn ++ toString ip ++ "." ++ String.mk frac

/-- Insertion-ordered record assignment `r[k] = v` on a JS object:
an existing key keeps its position and gets the new value, a new key is
appended. -/
def recInsert (r : List (String × α)) (k : String) (v : α) : List (String × α) :=
  if r.any (fun p => p.1 == k) then
    r.map (fun p => if p.1 == k then (k, v) else p)
  else r ++ [(k, v)]

/-- JS record lookup `r[k]`, `none` when the key is absent. -/
def recFind (r : List (String × α)) (k : String) : Option α :=
  match r.find? (fun p => p.1 == k) with
  | some p => some p.2
  | none => none

/-- A token record of the IR (`TokenValue` in generator/types.ts); the
`metadata` sub-object is flattened into optional fields. -/
structure Token where
  family : String
  name : String
  value : String
  rawValue : Option ℚ := none
  unit : Option String := none
  reference : Option String := none
  isAlphaVariant : Bool := false
  alphaLevel : Option String := none
  baseColor : Option String := none
  timeCategory : Option String := none
deriving Repr, DecidableEq

/-- `ModeInfo` from generator/types.ts. -/
structure ModeInfo where
  default : String
  overrides : List String
deriving Repr, DecidableEq

/-- `GeneratorResult` from generator/types.ts. -/
structure GeneratorResult where
  defaultTokens : List Token
  overrideTokens : List (String × List Token)
  modeInfo : ModeInfo
deriving Repr, DecidableEq

/-- The per-family name prefixes of `GeneratorConfig.prefixes`. -/
structure Prefixes where
  color : String
  spacing : String
  gap : String
  typography : String
  borderRadius : String
  borderWidth : String
  time : String
deriving Repr, DecidableEq

/-- `GeneratorConfig.colorFormat`. -/
structure ColorFormat where
  base : String
  alpha : String
  alphaModifier : String
deriving Repr, DecidableEq

/-- The resolved generator configuration (generator/types.ts). The
`separators` and `modeCategories` fields are merged but never read by any
embedded code path, so they are omitted. -/
structure GeneratorConfig where
  prefixes : Prefixes
  colorFormat : ColorFormat
deriving Repr, DecidableEq

/-- `defaultGeneratorConfig` from generator/types.ts. -/
def defaultGeneratorConfig : GeneratorConfig :=
  { prefixes :=
      { color := "clr", spacing := "sp", gap := "gap", typography := "fs",
        borderRadius := "bdr", borderWidth := "bdw", time := "t" },
    colorFormat := { base := "oklch", alpha := "oklch", alphaModifier := "a" } }

/-- `getDefaultMode` (generator/utils.ts): the first mode whose `isDefault`
flag is set, else the first mode; `none` only on an empty list (where the JS
code would yield `undefined`). -/
def getDefaultMode? (isDef : α → Bool) (modes : List α) : Option α :=
  match modes.find? isDef with
  | some m => some m
  | none => modes.head?

/-- Index of the mode `getDefaultMode` returns (reference equality in
`modes.filter((m) => m !== defaultMode)` distinguishes list positions, so the
override set is every position other than this one). -/
def defaultIdx (isDef : α → Bool) (modes : List α) : Nat :=
  match modes.findIdx? isDef with
  | some i => i
  | none => 0

/-- The override modes: every list position other than `defaultIdx`, in
declaration order (`modes.filter((m) => m !== defaultMode)`). -/
def overridesOf (isDef : α → Bool) (modes : List α) : List α :=
  (modes.enum.filter (fun p => p.1 != defaultIdx isDef modes)).map (fun p => p.2)

/-- An OKLCH color value (`Oklch` from culori), opaque to the generator. -/
structure Color where
  mode : String
  l : ℚ
  c : ℚ
  h : ℚ
deriving Repr, DecidableEq

/-- Modelled from the spec: the opaque color-formatting capability
`format(color, encoding) -> string` (`formatColor` in the core package's
utils module, which is not under src/); a CSS color-function string such as
`"oklch(0.26 0 180)"`. -/
def formatColor (c : Color) (enc : String) : String :=
  enc ++ "(" ++ ratToString c.l ++ " " ++ ratToString c.c ++ " " ++ ratToString c.h ++ ")"

/-- Modelled from the spec: the opaque color-formatting capability
`formatWithAlpha(color, alpha, encoding) -> string` (`formatColorWithAlpha`
in the core package's utils module, which is not under src/). -/
def formatColorWithAlpha (c : Color) (alpha : ℚ) (enc : String) : String :=
  enc ++ "(" ++ ratToString c.l ++ " " ++ ratToString c.c ++ " " ++ ratToString c.h
    ++ " / " ++ ratToString alpha ++ ")"

/-- An alpha/transparency schedule: ordered level-name → opacity map. -/
abbrev AlphaSchedule := List (String × ℚ)

/-- A color mode (`ColorMode & { name: string }`); a `none` entry in
`tokens` is an explicitly-present-but-undefined color (a hole in a sparse
override map). -/
structure ColorMode where
  name : String
  isDefault : Bool := false
  tokens : List (String × Option Color)
  alphaSchedule : Option AlphaSchedule := none
deriving Repr, DecidableEq

/-- The color family configuration (`DesignSystem['colors']`). -/
structure ColorsFamily where
  modes : List ColorMode
  alphaSchedule : Option AlphaSchedule := none
deriving Repr, DecidableEq

/-- `SpacingSystem` from types.ts. -/
structure SpacingSystem where
  unit : String
  base : ℚ
  min : ℚ
  range : ℚ
deriving Repr, DecidableEq

/-- A spacing mode (`SpacingMode & { name: string }`). -/
structure SpacingMode where
  name : String
  isDefault : Bool := false
  tokens : SpacingSystem
deriving Repr, DecidableEq

/-- The spacing family configuration (`DesignSystem['spacing']`). -/
structure SpacingFamily where
  modes : List SpacingMode
deriving Repr, DecidableEq

/-- A gap / border-radius map entry: the literal sentinel `"min"` or a
numeric multiplier. -/
inductive RefVal where
  | smin : RefVal
  | num : ℚ → RefVal
deriving Repr, DecidableEq

/-- `GapSystem` / `BorderRadiusSystem` from types.ts (identical shapes):
the structural fields plus the open-ended ordered map of semantic keys.
`Object.entries` in the generators iterates the whole object and skips the
keys named `unit` and `spacingMode` (`META_PROPS`); storing the two
structural fields apart, the generators below re-apply that skip to `vals`
so a semantic key spelled like a meta key behaves as in the source. -/
structure RefSystem where
  spacingMode : Option String := none
  unit : Option String := none
  vals : List (String × RefVal)
deriving Repr, DecidableEq

/-- A gap mode (`GapMode & { name: string }`). -/
structure GapMode where
  name : String
  isDefault : Bool := false
  tokens : RefSystem
deriving Repr, DecidableEq

/-- The gap family configuration (`DesignSystem['gap']`). -/
structure GapFamily where
  modes : List GapMode
deriving Repr, DecidableEq

/-- `FontSizeSystem` from types.ts. -/
structure FontSizeSystem where
  unit : String
  base : ℚ
  min : ℚ
  increment : ℚ
  range : ℚ
deriving Repr, DecidableEq

/-- A typography mode (`TypographyMode & { name: string }`). -/
structure TypographyMode where
  name : String
  isDefault : Bool := false
  tokens : FontSizeSystem
deriving Repr, DecidableEq

/-- The typography family configuration (`DesignSystem['typography']`). -/
structure TypographyFamily where
  modes : List TypographyMode
deriving Repr, DecidableEq

/-- A border-radius mode (`BorderRadiusMode & { name: string }`). -/
structure RadiusMode where
  name : String
  isDefault : Bool := false
  tokens : RefSystem
deriving Repr, DecidableEq

/-- `DesignSystem['border']['radius']`. -/
structure RadiusFamily where
  modes : List RadiusMode
deriving Repr, DecidableEq

/-- `BorderWidthSystem` from types.ts. -/
structure BorderWidthSystem where
  unit : String
  value : ℚ
deriving Repr, DecidableEq

/-- A border-width mode (`BorderWidthMode & { name: string }`). -/
structure BorderWidthMode where
  name : String
  isDefault : Bool := false
  tokens : BorderWidthSystem
deriving Repr, DecidableEq

/-- `DesignSystem['border']['width']`. -/
structure WidthFamily where
  modes : List BorderWidthMode
deriving Repr, DecidableEq

/-- `BorderSystem` from types.ts; the orchestrator and the validator treat
`radius` and `width` as independently optional at runtime. -/
structure BorderFamily where
  radius : Option RadiusFamily := none
  width : Option WidthFamily := none
deriving Repr, DecidableEq

/-- `TimeSystem` from types.ts. -/
structure TimeSystem where
  unit : String
  base : ℚ
  min : ℚ
  range : ℚ
deriving Repr, DecidableEq

/-- A time mode (`TimeMode & { name: string }`). -/
structure TimeMode where
  name : String
  isDefault : Bool := false
  tokens : TimeSystem
deriving Repr, DecidableEq

/-- The time family configuration (`DesignSystem['time']`). -/
structure TimeFamily where
  modes : List TimeMode
deriving Repr, DecidableEq

/-- `PartialDesignSystem` from types.ts: every family optional. -/
structure PartialDesignSystem where
  colors : Option ColorsFamily := none
  spacing : Option SpacingFamily := none
  gap : Option GapFamily := none
  typography : Option TypographyFamily := none
  border : Option BorderFamily := none
  time : Option TimeFamily := none
deriving Repr, DecidableEq

/-- The number of iterations of `for (let i = 1; i <= range; i++)` when
`range` is an arbitrary JS number. -/
def loopCount (range : ℚ) : Nat :=
  if range < 1 then 0 else (⌊range⌋).toNat

/-- The loop indices `1, 2, …` of `for (let i = 1; i <= range; i++)`. -/
def loopIdx (range : ℚ) : List Nat :=
  (List.range (loopCount range)).map (fun j => j + 1)

/-- `generateTokensForMode` of the spacing generator (spacing.ts):
one `min` token, then `range` tokens `sp-{i} = base * i`. -/
def generateSpacingTokensForMode (mode : SpacingMode) (config : GeneratorConfig) :
    List Token :=
  let pfx := config.prefixes.spacing
  let t := mode.tokens
  { family := "spacing", name := pfx ++ "-min", value := ratToString t.min ++ t.unit,
    rawValue := some t.min, unit := some t.unit }
    :: (loopIdx t.range).map (fun (i : Nat) =>
      { family := "spacing", name := pfx ++ "-" ++ toString i,
        value := ratToString (t.base * i) ++ t.unit,
        rawValue := some (t.base * i), unit := some t.unit })

/-- `generateSpacingTokens` (spacing.ts); `none` models the crash on an
empty mode list, which validation rules out upstream. -/
def generateSpacingTokens (spacing : SpacingFamily) (config : GeneratorConfig) :
    Option GeneratorResult :=
  match getDefaultMode? (fun m => m.isDefault) spacing.modes with
  | none => none
  | some dm =>
    let ov := overridesOf (fun m => m.isDefault) spacing.modes
    some { defaultTokens := generateSpacingTokensForMode dm config,
           overrideTokens := ov.foldl
             (fun acc m => recInsert acc m.name (generateSpacingTokensForMode m config)) [],
           modeInfo := { default := dm.name, overrides := ov.map (fun m => m.name) } }

/-- `generateTokensForMode` of the typography generator (part_010):
one `min` token, then `fs-1 = base` and `fs-n = base + increment*(n-1)`,
values rendered through `formatNumber`. -/
def generateTypographyTokensForMode (mode : TypographyMode) (config : GeneratorConfig) :
    List Token :=
  let pfx := config.prefixes.typography
  let t := mode.tokens
  { family := "typography", name := pfx ++ "-min",
    value := formatNumber t.min ++ t.unit, rawValue := some t.min, unit := some t.unit }
    :: (loopIdx t.range).map (fun (i : Nat) =>
      let v := if i == 1 then t.base else t.base + t.increment * ((i : ℚ) - 1)
      { family := "typography", name := pfx ++ "-" ++ toString i,
        value := formatNumber v ++ t.unit, rawValue := some v, unit := some t.unit })

/-- `generateTypographyTokens` (part_010). -/
def generateTypographyTokens (typography : TypographyFamily) (config : GeneratorConfig) :
    Option GeneratorResult :=
  match getDefaultMode? (fun m => m.isDefault) typography.modes with
  | none => none
  | some dm =>
    let ov := overridesOf (fun m => m.isDefault) typography.modes
    some { defaultTokens := generateTypographyTokensForMode dm config,
           overrideTokens := ov.foldl
             (fun acc m => recInsert acc m.name (generateTypographyTokensForMode m config)) [],
           modeInfo := { default := dm.name, overrides := ov.map (fun m => m.name) } }

/-- `generateTokensForMode` of the color generator (part_010): per defined
color one base token plus one token per alpha-schedule level; `none`-valued
entries are skipped; with no schedule only base tokens are emitted. -/
def generateColorTokensForMode (mode : ColorMode) (alphaSchedule : Option AlphaSchedule)
    (config : GeneratorConfig) : List Token :=
  let pfx := config.prefixes.color
  let am := config.colorFormat.alphaModifier
  mode.tokens.flatMap (fun p =>
    match p.2 with
    | none => []
    | some color =>
      { family := "color", name := pfx ++ "-" ++ p.1,
        value := formatColor color config.colorFormat.base, baseColor := some p.1 }
        :: (match alphaSchedule with
            | none => []
            | some sched => sched.map (fun lv =>
                { family := "color",
                  name := pfx ++ "-" ++ p.1 ++ "-" ++ am ++ "-" ++ lv.1,
                  value := formatColorWithAlpha color lv.2 config.colorFormat.alpha,
                  rawValue := some lv.2, isAlphaVariant := true,
                  alphaLevel := some lv.1, baseColor := some p.1 })))

/-- `getAlphaSchedule` (part_010): the mode-specific schedule, else the
fallback handed in by the caller (`mode.alphaSchedule || systemAlphaSchedule`;
a present-but-empty schedule object is truthy and is kept). -/
def getAlphaSchedule (mode : ColorMode) (systemAlphaSchedule : Option AlphaSchedule) :
    Option AlphaSchedule :=
  match mode.alphaSchedule with
  | some s => some s
  | none => systemAlphaSchedule

/-- `generateColorTokens` (part_010). The default mode resolves its schedule
against the family-level schedule; every override mode resolves against the
default mode's resolved schedule; override modes with an empty token map are
omitted from `overrideTokens`. -/
def generateColorTokens (colors : ColorsFamily) (config : GeneratorConfig) :
    Option GeneratorResult :=
  match getDefaultMode? (fun m => m.isDefault) colors.modes with
  | none => none
  | some dm =>
    let ov := overridesOf (fun m => m.isDefault) colors.modes
    let defaultAlphaSchedule := getAlphaSchedule dm colors.alphaSchedule
    some { defaultTokens := generateColorTokensForMode dm defaultAlphaSchedule config,
           overrideTokens := ov.foldl
             (fun acc m =>
               if m.tokens.length > 0 then
                 recInsert acc m.name
                   (generateColorTokensForMode m (getAlphaSchedule m defaultAlphaSchedule) config)
               else acc) [],
           modeInfo := { default := dm.name, overrides := ov.map (fun m => m.name) } }

/-- JS `a || b` on an optional string: an absent or empty string falls back. -/
def jsStrOr (a : Option String) (b : String) : String :=
  match a with
  | some s => if s = "" then b else s
  | none => b

/-- JS truthiness of an optional string field: an empty string is falsy. -/
def jsStr? (a : Option String) : Option String :=
  match a with
  | some s => if s = "" then none else some s
  | none => none

/-- Resolution of a gap / border-radius entry against the chosen spacing
system: the sentinel `"min"` takes the spacing `min`, a number `k` takes
`k * base`. -/
def resolveRefVal (v : RefVal) (s : SpacingSystem) : ℚ :=
  match v with
  | .smin => s.min
  | .num k => k * s.base

/-- The recorded `reference` string: `sp-min` or `sp-{k}` (with the
configured spacing prefix). -/
def refString (v : RefVal) (config : GeneratorConfig) : String :=
  match v with
  | .smin => config.prefixes.spacing ++ "-min"
  | .num k => config.prefixes.spacing ++ "-" ++ ratToString k

/-- `META_PROPS.includes(key)`: the two structural keys excluded from token
emission. -/
def isMetaProp (k : String) : Bool :=
  k == "unit" || k == "spacingMode"

/-- `generateTokensForMode` of the gap generator (part_016): every key of
the token map except the `META_PROPS` (`unit`, `spacingMode`) becomes one
token resolved against the chosen spacing mode. -/
def generateGapTokensForMode (gapMode : GapMode) (spacingMode : SpacingMode)
    (config : GeneratorConfig) : List Token :=
  let pfx := config.prefixes.gap
  let unit := jsStrOr gapMode.tokens.unit spacingMode.tokens.unit
  gapMode.tokens.vals.filterMap (fun p =>
    if isMetaProp p.1 then none
    else
      let rv := resolveRefVal p.2 spacingMode.tokens
      some { family := "gap", name := pfx ++ "-" ++ p.1,
             value := ratToString rv ++ unit, rawValue := some rv,
             unit := some unit, reference := some (refString p.2 config) })

/-- `findSpacingModeForGap` (part_016): the spacing mode named by the
explicit (truthy) `spacingMode` field when it exists, else a spacing mode
sharing the gap mode's own name, else the default spacing mode; `none` only
when the spacing mode list is empty. -/
def findSpacingModeForGap (gapMode : GapMode) (spacingModes : List SpacingMode) :
    Option SpacingMode :=
  match (jsStr? gapMode.tokens.spacingMode).bind
      (fun n => spacingModes.find? (fun m => m.name == n)) with
  | some m => some m
  | none =>
    match spacingModes.find? (fun m => m.name == gapMode.name) with
    | some m => some m
    | none => getDefaultMode? (fun m => m.isDefault) spacingModes

/-- `generateGapTokens` (part_016). -/
def generateGapTokens (gap : GapFamily) (spacing : SpacingFamily)
    (config : GeneratorConfig) : Option GeneratorResult :=
  match getDefaultMode? (fun m => m.isDefault) gap.modes with
  | none => none
  | some dgm =>
    match findSpacingModeForGap dgm spacing.modes with
    | none => none
    | some dsm =>
      let ov := overridesOf (fun m => m.isDefault) gap.modes
      match ov.mapM (fun m =>
          (findSpacingModeForGap m spacing.modes).map
            (fun sm => (m.name, generateGapTokensForMode m sm config))) with
      | none => none
      | some pairs =>
        some { defaultTokens := generateGapTokensForMode dgm dsm config,
               overrideTokens := pairs.foldl (fun acc p => recInsert acc p.1 p.2) [],
               modeInfo := { default := dgm.name, overrides := ov.map (fun m => m.name) } }

/-- `generateRadiusTokensForMode` of the border generator (part_012);
behaviorally identical to the gap generator with the border-radius prefix. -/
def generateRadiusTokensForMode (borderRadiusMode : RadiusMode)
    (spacingMode : SpacingMode) (config : GeneratorConfig) : List Token :=
  let pfx := config.prefixes.borderRadius
  let unit := jsStrOr borderRadiusMode.tokens.unit spacingMode.tokens.unit
  borderRadiusMode.tokens.vals.filterMap (fun p =>
    if isMetaProp p.1 then none
    else
      let rv := resolveRefVal p.2 spacingMode.tokens
      some { family := "borderRadius", name := pfx ++ "-" ++ p.1,
             value := ratToString rv ++ unit, rawValue := some rv,
             unit := some unit, reference := some (refString p.2 config) })

/-- `findSpacingModeForRadius` (part_012). -/
def findSpacingModeForRadius (borderRadiusMode : RadiusMode)
    (spacingModes : List SpacingMode) : Option SpacingMode :=
  match (jsStr? borderRadiusMode.tokens.spacingMode).bind
      (fun n => spacingModes.find? (fun m => m.name == n)) with
  | some m => some m
  | none =>
    match spacingModes.find? (fun m => m.name == borderRadiusMode.name) with
    | some m => some m
    | none => getDefaultMode? (fun m => m.isDefault) spacingModes

/-- `generateBorderRadiusTokens` (part_012). -/
def generateBorderRadiusTokens (borderRadius : RadiusFamily) (spacing : SpacingFamily)
    (config : GeneratorConfig) : Option GeneratorResult :=
  match getDefaultMode? (fun m => m.isDefault) borderRadius.modes with
  | none => none
  | some drm =>
    match findSpacingModeForRadius drm spacing.modes with
    | none => none
    | some dsm =>
      let ov := overridesOf (fun m => m.isDefault) borderRadius.modes
      match ov.mapM (fun m =>
          (findSpacingModeForRadius m spacing.modes).map
            (fun sm => (m.name, generateRadiusTokensForMode m sm config))) with
      | none => none
      | some pairs =>
        some { defaultTokens := generateRadiusTokensForMode drm dsm config,
               overrideTokens := pairs.foldl (fun acc p => recInsert acc p.1 p.2) [],
               modeInfo := { default := drm.name, overrides := ov.map (fun m => m.name) } }

/-- `generateWidthTokensForMode` (part_012): exactly one unindexed token. -/
def generateWidthTokensForMode (mode : BorderWidthMode) (config : GeneratorConfig) :
    List Token :=
  [{ family := "borderWidth", name := config.prefixes.borderWidth,
     value := ratToString mode.tokens.value ++ mode.tokens.unit,
     rawValue := some mode.tokens.value, unit := some mode.tokens.unit }]

/-- `generateBorderWidthTokens` (part_012). -/
def generateBorderWidthTokens (borderWidth : WidthFamily) (config : GeneratorConfig) :
    Option GeneratorResult :=
  match getDefaultMode? (fun m => m.isDefault) borderWidth.modes with
  | none => none
  | some dm =>
    let ov := overridesOf (fun m => m.isDefault) borderWidth.modes
    some { defaultTokens := generateWidthTokensForMode dm config,
           overrideTokens := ov.foldl
             (fun acc m => recInsert acc m.name (generateWidthTokensForMode m config)) [],
           modeInfo := { default := dm.name, overrides := ov.map (fun m => m.name) } }

/-- `generateTokensForMode` of the time generator (time.ts): the default
mode's tokens use the bare time prefix, other modes infix their own name. -/
def generateTimeTokensForMode (mode : TimeMode) (isDefaultMode : Bool)
    (config : GeneratorConfig) : List Token :=
  let basePfx := config.prefixes.time
  let t := mode.tokens
  let pfx := if isDefaultMode then basePfx else basePfx ++ "-" ++ mode.name
  { family := "time", name := pfx ++ "-min", value := ratToString t.min ++ t.unit,
    rawValue := some t.min, unit := some t.unit, timeCategory := some mode.name }
    :: (loopIdx t.range).map (fun (i : Nat) =>
      { family := "time", name := pfx ++ "-" ++ toString i,
        value := ratToString (t.base * i) ++ t.unit,
        rawValue := some (t.base * i), unit := some t.unit,
        timeCategory := some mode.name })

/-- `generateTimeTokens` (time.ts): all modes are flattened into the default
token list; `overrideTokens` and the override mode list stay empty. -/
def generateTimeTokens (time : TimeFamily) (config : GeneratorConfig) :
    Option GeneratorResult :=
  match getDefaultMode? (fun m => m.isDefault) time.modes with
  | none => none
  | some dm =>
    let di := defaultIdx (fun m => m.isDefault) time.modes
    some { defaultTokens := time.modes.enum.flatMap
             (fun p => generateTimeTokensForMode p.2 (p.1 == di) config),
           overrideTokens := [],
           modeInfo := { default := dm.name, overrides := [] } }

/-- The entry loop of `validateAlphaSchedule` (fail-fast `for … of`). -/
def validateAlphaLevels (path : String) : AlphaSchedule → Except String Unit
  | [] => .ok ()
  | lv :: rest =>
    if lv.2 < 0 ∨ lv.2 > 1 then
      .error (path ++ "." ++ lv.1 ++ " must be between 0 and 1 (got "
        ++ ratToString lv.2 ++ ")")
    else validateAlphaLevels path rest

/-- `validateAlphaSchedule` (validate.ts): at least one level; every value
in [0, 1]. (`typeof value !== 'number'` cannot arise in the embedding.) -/
def validateAlphaSchedule (schedule : AlphaSchedule) (path : String) :
    Except String Unit :=
  if schedule.isEmpty then
    .error (path ++ " must have at least one alpha level")
  else validateAlphaLevels path schedule

/-- The per-mode loop of `validateColorsPartial` (fail-fast `forEach`). -/
def validateColorModes : Nat → List ColorMode → Except String Unit
  | _, [] => .ok ()
  | i, m :: rest =>
    if m.name = "" then
      .error ("Color mode at index " ++ toString i ++ " must have a name")
    else validateColorModes (i + 1) rest

/-- The second per-mode loop of `validateColorsPartial`: each mode's own
alpha schedule, when present. -/
def validateColorModeSchedules : List ColorMode → Except String Unit
  | [] => .ok ()
  | m :: rest =>
    match m.alphaSchedule with
    | some s => do
      validateAlphaSchedule s ("colors.modes[\"" ++ m.name ++ "\"].alphaSchedule")
      validateColorModeSchedules rest
    | none => validateColorModeSchedules rest

/-- `validateColorsPartial` (validate.ts). The `Array.isArray` and
`typeof mode.tokens` shape checks cannot fail in the typed embedding. -/
def validateColorsFam (colors : ColorsFamily) : Except String Unit := do
  if colors.modes.isEmpty then
    throw "colors.modes must have at least one mode"
  validateColorModes 0 colors.modes
  match colors.alphaSchedule with
  | some s => validateAlphaSchedule s "colors.alphaSchedule"
  | none => pure ()
  validateColorModeSchedules colors.modes

/-- The per-mode loop of `validateSpacingPartial`. -/
def validateSpacingModes : Nat → List SpacingMode → Except String Unit
  | _, [] => .ok ()
  | i, m :: rest =>
    if m.name = "" then
      .error ("Spacing mode at index " ++ toString i ++ " must have a name")
    else if m.tokens.unit = "" then
      .error ("Spacing mode \"" ++ m.name ++ "\" must have a unit string")
    else if m.tokens.base ≤ 0 then
      .error ("Spacing mode \"" ++ m.name ++ "\" base must be a positive number")
    else if m.tokens.min < 0 then
      .error ("Spacing mode \"" ++ m.name ++ "\" min must be a non-negative number")
    else if m.tokens.range < 1 ∨ m.tokens.range.den ≠ 1 then
      .error ("Spacing mode \"" ++ m.name ++ "\" range must be a positive integer")
    else validateSpacingModes (i + 1) rest

/-- `validateSpacingPartial` (validate.ts). -/
def validateSpacingFam (spacing : SpacingFamily) : Except String Unit := do
  if spacing.modes.isEmpty then
    throw "spacing.modes must have at least one mode"
  validateSpacingModes 0 spacing.modes

/-- The per-mode loop of `validateGapPartial` (name presence only). -/
def validateGapModes : Nat → List GapMode → Except String Unit
  | _, [] => .ok ()
  | i, m :: rest =>
    if m.name = "" then
      .error ("Gap mode at index " ++ toString i ++ " must have a name")
    else validateGapModes (i + 1) rest

/-- `validateGapPartial` (validate.ts). -/
def validateGapFam (gap : GapFamily) : Except String Unit := do
  if gap.modes.isEmpty then
    throw "gap.modes must have at least one mode"
  validateGapModes 0 gap.modes

/-- The per-mode loop of `validateTypographyPartial`. -/
def validateTypographyModes : Nat → List TypographyMode → Except String Unit
  | _, [] => .ok ()
  | i, m :: rest =>
    if m.name = "" then
      .error ("Typography mode at index " ++ toString i ++ " must have a name")
    else if m.tokens.unit = "" then
      .error ("Typography mode \"" ++ m.name ++ "\" must have a unit string")
    else if m.tokens.base ≤ 0 then
      .error ("Typography mode \"" ++ m.name ++ "\" base must be a positive number")
    else if m.tokens.min < 0 then
      .error ("Typography mode \"" ++ m.name ++ "\" min must be a non-negative number")
    else if m.tokens.range < 1 ∨ m.tokens.range.den ≠ 1 then
      .error ("Typography mode \"" ++ m.name ++ "\" range must be a positive integer")
    else validateTypographyModes (i + 1) rest

/-- `validateTypographyPartial` (validate.ts). -/
def validateTypographyFam (typography : TypographyFamily) : Except String Unit := do
  if typography.modes.isEmpty then
    throw "typography.modes must have at least one mode"
  validateTypographyModes 0 typography.modes

/-- The radius per-mode loop of `validateBorderPartial`. -/
def validateRadiusModes : Nat → List RadiusMode → Except String Unit
  | _, [] => .ok ()
  | i, m :: rest =>
    if m.name = "" then
      .error ("Border radius mode at index " ++ toString i ++ " must have a name")
    else validateRadiusModes (i + 1) rest

/-- The width per-mode loop of `validateBorderPartial`. -/
def validateWidthModes : Nat → List BorderWidthMode → Except String Unit
  | _, [] => .ok ()
  | i, m :: rest =>
    if m.name = "" then
      .error ("Border width mode at index " ++ toString i ++ " must have a name")
    else if m.tokens.unit = "" then
      .error ("Border width mode \"" ++ m.name ++ "\" must have a unit string")
    else if m.tokens.value < 0 then
      .error ("Border width mode \"" ++ m.name ++ "\" value must be a non-negative number")
    else validateWidthModes (i + 1) rest

/-- `validateBorderPartial` (validate.ts). -/
def validateBorderFam (border : BorderFamily) : Except String Unit := do
  match border.radius with
  | some r => do
    if r.modes.isEmpty then
      throw "border.radius.modes must have at least one mode"
    validateRadiusModes 0 r.modes
  | none => pure ()
  match border.width with
  | some w => do
    if w.modes.isEmpty then
      throw "border.width.modes must have at least one mode"
    validateWidthModes 0 w.modes
  | none => pure ()

/-- `validateTimeTokens` (validate.ts): note `base` may be zero here,
unlike spacing. -/
def validateTimeTokens (tokens : TimeSystem) (path : String) : Except String Unit :=
  if tokens.unit = "" then
    .error (path ++ " must have a unit string")
  else if tokens.base < 0 then
    .error (path ++ ".base must be a non-negative number")
  else if tokens.min < 0 then
    .error (path ++ ".min must be a non-negative number")
  else if tokens.range < 1 ∨ tokens.range.den ≠ 1 then
    .error (path ++ ".range must be a positive integer")
  else .ok ()

/-- The per-mode loop of `validateTimePartial`. -/
def validateTimeModes : Nat → List TimeMode → Except String Unit
  | _, [] => .ok ()
  | i, m :: rest =>
    if m.name = "" then
      .error ("Time mode at index " ++ toString i ++ " must have a name")
    else do
      validateTimeTokens m.tokens ("time.modes[\"" ++ m.name ++ "\"].tokens")
      validateTimeModes (i + 1) rest

/-- `validateTimePartial` (validate.ts). -/
def validateTimeFam (time : TimeFamily) : Except String Unit := do
  if time.modes.isEmpty then
    throw "time.modes must have at least one mode"
  validateTimeModes 0 time.modes

/-- Fail-fast sequencing of two validation steps (`;` between two
statements that may throw). -/
def vseq (a b : Except String Unit) : Except String Unit :=
  match a with
  | .ok _ => b
  | .error e => .error e

/-- `validatePartialDesignSystem` (validate.ts): at least one family,
cross-family dependencies, then each provided family in order. -/
def validatePartialDesignSystem (ds : PartialDesignSystem) : Except String Unit :=
  if ds.colors.isNone ∧ ds.spacing.isNone ∧ ds.gap.isNone ∧ ds.typography.isNone
      ∧ ds.border.isNone ∧ ds.time.isNone then
    .error "At least one token family must be provided"
  else if ds.gap.isSome ∧ ds.spacing.isNone then
    .error "Gap requires spacing (gap values reference spacing tokens)"
  else if (ds.border.bind (fun b => b.radius)).isSome ∧ ds.spacing.isNone then
    .error "Border radius requires spacing (radius values reference spacing tokens)"
  else
    vseq (match ds.colors with
          | some c => validateColorsFam c
          | none => .ok ())
    (vseq (match ds.spacing with
           | some s => validateSpacingFam s
           | none => .ok ())
    (vseq (match ds.gap with
           | some g => validateGapFam g
           | none => .ok ())
    (vseq (match ds.typography with
           | some t => validateTypographyFam t
           | none => .ok ())
    (vseq (match ds.border with
           | some b => validateBorderFam b
           | none => .ok ())
    (match ds.time with
     | some t => validateTimeFam t
     | none => .ok ())))))

/-- The IR's `modes` field: per-category mode information. -/
structure IRModes where
  color : ModeInfo
  size : ModeInfo
  time : ModeInfo
deriving Repr, DecidableEq

/-- The Intermediate Representation (`IR` in generator/types.ts). -/
structure IR where
  tokens : List (String × Token)
  modes : IRModes
  overrideTokens : List (String × List (String × Token))
deriving Repr, DecidableEq

/-- `tokensToRecord`: array of tokens to record keyed by name (a repeated
name keeps the first position and the last value, as JS assignment does). -/
def tokensToRecord (tokens : List Token) : List (String × Token) :=
  tokens.foldl (fun record t => recInsert record t.name t) []

/-- User overrides of the prefixes (`Partial<GeneratorConfig>['prefixes']`). -/
structure UserPrefixes where
  color : Option String := none
  spacing : Option String := none
  gap : Option String := none
  typography : Option String := none
  borderRadius : Option String := none
  borderWidth : Option String := none
  time : Option String := none
deriving Repr, DecidableEq

/-- User overrides of the color format. -/
structure UserColorFormat where
  base : Option String := none
  alpha : Option String := none
  alphaModifier : Option String := none
deriving Repr, DecidableEq

/-- `Partial<GeneratorConfig>` as taken by `generate`. -/
structure UserGeneratorConfig where
  prefixes : Option UserPrefixes := none
  colorFormat : Option UserColorFormat := none
deriving Repr, DecidableEq

/-- `mergeConfig` of the orchestrator: spread user leaves over defaults. -/
def mergeConfig (userConfig : Option UserGeneratorConfig) : GeneratorConfig :=
  match userConfig with
  | none => defaultGeneratorConfig
  | some uc =>
    let dp := defaultGeneratorConfig.prefixes
    let dcf := defaultGeneratorConfig.colorFormat
    let up := uc.prefixes.getD {}
    let ucf := uc.colorFormat.getD {}
    { prefixes :=
        { color := up.color.getD dp.color, spacing := up.spacing.getD dp.spacing,
          gap := up.gap.getD dp.gap, typography := up.typography.getD dp.typography,
          borderRadius := up.borderRadius.getD dp.borderRadius,
          borderWidth := up.borderWidth.getD dp.borderWidth,
          time := up.time.getD dp.time },
      colorFormat :=
        { base := ucf.base.getD dcf.base, alpha := ucf.alpha.getD dcf.alpha,
          alphaModifier := ucf.alphaModifier.getD dcf.alphaModifier } }

/-- `emptyResult` of the orchestrator. -/
def emptyResult : GeneratorResult :=
  { defaultTokens := [], overrideTokens := [], modeInfo := { default := "", overrides := [] } }

/-- Append a name to a list unless already present: one step of filling a JS
`Set<string>` (iteration order is insertion order). -/
def addUnique (acc : List String) (n : String) : List String :=
  if acc.contains n then acc else acc ++ [n]

/-- The override token list a family generator produced for a mode name
(`result.overrideTokens[modeName]`, `[]` when absent). -/
def overrideTokensFor (r : GeneratorResult) (modeName : String) : List Token :=
  (recFind r.overrideTokens modeName).getD []

/-- Lift a family generator's possible crash (empty mode list, ruled out by
validation) into the orchestrator's exception monad. -/
def liftResult (r : Option GeneratorResult) : Except String GeneratorResult :=
  match r with
  | some r => .ok r
  | none => .error "internal: generator invoked on an empty mode list"

/-- `generate` (the orchestrator): validate, merge config, run the seven
family generators, combine default tokens, union override mode names, group
per-mode override tokens, and compute per-category mode info. -/
def generate (designSystem : PartialDesignSystem)
    (userConfig : Option UserGeneratorConfig) : Except String IR := do
  validatePartialDesignSystem designSystem
  let config := mergeConfig userConfig
  let colorResult ← match designSystem.colors with
    | some c => liftResult (generateColorTokens c config)
    | none => pure emptyResult
  let spacingResult ← match designSystem.spacing with
    | some s => liftResult (generateSpacingTokens s config)
    | none => pure emptyResult
  let gapResult ← match designSystem.gap, designSystem.spacing with
    | some g, some s => liftResult (generateGapTokens g s config)
    | _, _ => pure emptyResult
  let typographyResult ← match designSystem.typography with
    | some t => liftResult (generateTypographyTokens t config)
    | none => pure emptyResult
  let borderRadiusResult ← match designSystem.border.bind (fun b => b.radius),
      designSystem.spacing with
    | some r, some s => liftResult (generateBorderRadiusTokens r s config)
    | _, _ => pure emptyResult
  let borderWidthResult ← match designSystem.border.bind (fun b => b.width) with
    | some w => liftResult (generateBorderWidthTokens w config)
    | none => pure emptyResult
  let timeResult ← match designSystem.time with
    | some t => liftResult (generateTimeTokens t config)
    | none => pure emptyResult
  let allResults := [colorResult, spacingResult, gapResult, typographyResult,
    borderRadiusResult, borderWidthResult, timeResult]
  let allDefaultTokens := colorResult.defaultTokens ++ spacingResult.defaultTokens
    ++ gapResult.defaultTokens ++ typographyResult.defaultTokens
    ++ borderRadiusResult.defaultTokens ++ borderWidthResult.defaultTokens
    ++ timeResult.defaultTokens
  let allOverrideModes := allResults.foldl
    (fun acc r => r.modeInfo.overrides.foldl addUnique acc) []
  let overrideTokens := allOverrideModes.foldl
    (fun acc modeName =>
      let modeTokens := allResults.flatMap (fun r => overrideTokensFor r modeName)
      if modeTokens.isEmpty then acc
      else acc ++ [(modeName, tokensToRecord modeTokens)]) []
  let sizeOverrides := [spacingResult, gapResult, typographyResult,
    borderRadiusResult, borderWidthResult].foldl
    (fun acc r => r.modeInfo.overrides.foldl addUnique acc) []
  return { tokens := tokensToRecord allDefaultTokens,
           modes :=
             { color := { default := colorResult.modeInfo.default,
                          overrides := colorResult.modeInfo.overrides },
               size := { default := spacingResult.modeInfo.default,
                         overrides := sizeOverrides },
               time := { default := timeResult.modeInfo.default,
                         overrides := timeResult.modeInfo.overrides } } ,
           overrideTokens := overrideTokens }

/-- The resolved CSS selector configuration (css.ts). -/
structure CssSelectors where
  root : String
  colorMode : String
  sizeMode : String
  timeMode : String
deriving Repr, DecidableEq

/-- `defaultSelectors` (css.ts). -/
def defaultSelectors : CssSelectors :=
  { root := ":root", colorMode := "[data-color-mode=\"{mode}\"]",
    sizeMode := "[data-size-mode=\"{mode}\"]", timeMode := "[data-time-mode=\"{mode}\"]" }

/-- User selector overrides (`CssTransformerConfig['selectors']`). -/
structure UserCssSelectors where
  root : Option String := none
  colorMode : Option String := none
  sizeMode : Option String := none
  timeMode : Option String := none
deriving Repr, DecidableEq

/-- `CssTransformerConfig` as taken by `toCss` (the optional file-header
feature of one copy is not configured by any embedded claim and is omitted:
with no header config it contributes nothing to the output). -/
structure CssTransformerConfig where
  selectors : Option UserCssSelectors := none
deriving Repr, DecidableEq

/-- `mergeConfig` of the CSS transformer. -/
def mergeCssConfig (userConfig : Option CssTransformerConfig) : CssSelectors :=
  match userConfig with
  | none => defaultSelectors
  | some uc =>
    let us := uc.selectors.getD {}
    { root := us.root.getD defaultSelectors.root,
      colorMode := us.colorMode.getD defaultSelectors.colorMode,
      sizeMode := us.sizeMode.getD defaultSelectors.sizeMode,
      timeMode := us.timeMode.getD defaultSelectors.timeMode }

/-- The three mode categories the CSS transformer distinguishes. -/
inductive ModeCategory where
  | color : ModeCategory
  | size : ModeCategory
  | time : ModeCategory
deriving Repr, DecidableEq

/-- `getModeCategory` (css.ts): membership-test the mode name against the
category override lists, color first, then size, then time. -/
def getModeCategory (modeName : String) (ir : IR) : Option ModeCategory :=
  if ir.modes.color.overrides.contains modeName then some .color
  else if ir.modes.size.overrides.contains modeName then some .size
  else if ir.modes.time.overrides.contains modeName then some .time
  else none

/-- `some rest` when `pat` is a prefix of `l`, with `rest` the remainder. -/
def dropPre? : List Char → List Char → Option (List Char)
  | [], l => some l
  | _ :: _, [] => none
  | p :: ps, c :: cs => if p == c then dropPre? ps cs else none

/-- Replace the first (leftmost) occurrence of `pat` in `l` by `rep`. -/
def replaceFirstChars (pat rep : List Char) : List Char → List Char
  | [] => (match dropPre? pat [] with
           | some rest => rep ++ rest
           | none => [])
  | c :: cs =>
    match dropPre? pat (c :: cs) with
    | some rest => rep ++ rest
    | none => c :: replaceFirstChars pat rep cs

/-- JS `String.prototype.replace` with a string pattern: first occurrence
only. -/
def replaceFirst (s pat rep : String) : String :=
  String.mk (replaceFirstChars pat.data rep.data s.data)

/-- `getSelectorForMode` (css.ts). -/
def getSelectorForMode (modeName : String) (category : ModeCategory)
    (config : CssSelectors) : String :=
  match category with
  | .color => replaceFirst config.colorMode "{mode}" modeName
  | .size => replaceFirst config.sizeMode "{mode}" modeName
  | .time => replaceFirst config.timeMode "{mode}" modeName

/-- `formatTokensAsCss` (css.ts): one declaration line per record entry. -/
def formatTokensAsCss (tokens : List (String × Token)) : List String :=
  tokens.map (fun p => "  --" ++ p.1 ++ ": " ++ p.2.value ++ ";")

/-- One iteration of the override loop of `toCss`: `none` when the mode name
is in no category's override list, or when its declaration list is empty. -/
def overrideBlock (ir : IR) (config : CssSelectors)
    (entry : String × List (String × Token)) : Option String :=
  match getModeCategory entry.1 ir with
  | none => none
  | some category =>
    let selector := getSelectorForMode entry.1 category config
    let modeVars := formatTokensAsCss entry.2
    if modeVars.length > 0 then
      some (selector ++ " \x7b\n" ++ String.intercalate "\n" modeVars ++ "\n\x7d")
    else none

/-- The block list `toCss` builds: the `:root` block, then one block per
categorizable, non-empty override mode. -/
def toCssBlocks (ir : IR) (config : CssSelectors) : List String :=
  (config.root ++ " \x7b\n" ++ String.intercalate "\n" (formatTokensAsCss ir.tokens) ++ "\n\x7d")
    :: ir.overrideTokens.filterMap (overrideBlock ir config)

/-- `toCss` (css.ts): blocks joined by a blank line. -/
def toCss (ir : IR) (userConfig : Option CssTransformerConfig) : String :=
  String.intercalate "\n\n" (toCssBlocks ir (mergeCssConfig userConfig))

/-!  Spec-side definitions, written from the spec's words, for the
refinement-style claims that compare the code against them. -/

/-- Follows the spec's words (gap / border-radius resolution): the spacing
mode to resolve against is chosen by trying in order (1) the spacing mode
named by the explicit `spacingMode` field, when such a spacing mode exists;
(2) a spacing mode sharing the referencing mode's own name; (3) the spacing
family's default mode. -/
def specResolveSpacingMode (explicitName : Option String) (ownName : String)
    (sms : List SpacingMode) : Option SpacingMode :=
  match explicitName.bind (fun n => sms.find? (fun m => m.name == n)) with
  | some m => some m
  | none =>
    match sms.find? (fun m => m.name == ownName) with
    | some m => some m
    | none => getDefaultMode? (fun m => m.isDefault) sms

/-- Follows the spec's words (gap / border-radius value resolution): the
sentinel `"min"` resolves to the chosen spacing mode's `min`, a number `k`
to `k * base` of the chosen spacing mode. -/
def specRefValue (v : RefVal) (s : SpacingSystem) : ℚ :=
  match v with
  | .smin => s.min
  | .num k => k * s.base

/-- Follows the spec's words: the recorded reference string, `sp-min` or
`sp-{k}`. -/
def specRefString (v : RefVal) : String :=
  match v with
  | .smin => "sp-min"
  | .num k => "sp-" ++ ratToString k

/-- Follows the spec's words (time generator output): all modes, default and
override alike, flattened into one combined token list; the default mode's
tokens are named `{t}-min` and `{t}-{i}` with value `base * i` for
`i in 1..range`, every non-default mode's tokens are named
`{t}-{modeName}-min` and `{t}-{modeName}-{i}`, each token carrying its
owning mode name as `timeCategory` metadata. -/
def specTimeTokens (time : TimeFamily) (config : GeneratorConfig) : List Token :=
  time.modes.enum.flatMap (fun p =>
    let t := p.2.tokens
    let pfx := if p.1 = defaultIdx (fun m => m.isDefault) time.modes
               then config.prefixes.time
               else config.prefixes.time ++ "-" ++ p.2.name
    { family := "time", name := pfx ++ "-min", value := ratToString t.min ++ t.unit,
      rawValue := some t.min, unit := some t.unit, timeCategory := some p.2.name }
      :: (loopIdx t.range).map (fun (i : Nat) =>
        { family := "time", name := pfx ++ "-" ++ toString i,
          value := ratToString (t.base * i) ++ t.unit, rawValue := some (t.base * i),
          unit := some t.unit, timeCategory := some p.2.name }))

/-- Follows the spec's words (typography output for integer range `r`): one
`min` token at `min`, then tokens `1..r` where index `1` equals `base`
exactly and index `n > 1` equals `base + increment * (n - 1)` — written with
`n = j + 1` so the additive formula covers index 1 as `base + increment*0`. -/
def specTypographyTokens (m : TypographyMode) (config : GeneratorConfig) (r : Nat) :
    List Token :=
  let t := m.tokens
  let pfx := config.prefixes.typography
  { family := "typography", name := pfx ++ "-min",
    value := formatNumber t.min ++ t.unit, rawValue := some t.min, unit := some t.unit }
    :: (List.range r).map (fun (j : Nat) =>
      let v := t.base + t.increment * (j : ℚ)
      { family := "typography", name := pfx ++ "-" ++ toString (j + 1),
        value := formatNumber v ++ t.unit, rawValue := some v, unit := some t.unit })

/-!  Concrete configurations used by witnesses and counterexamples. -/

/-- The end-to-end scenario input of the spec: a single default spacing mode
`{unit: "px", base: 8, min: 4, range: 2}`. -/
def c1cfg : PartialDesignSystem :=
  { spacing := some { modes := [{ name := "default", isDefault := true,
                                  tokens := { unit := "px", base := 8, min := 4, range := 2 } }] } }

/-- Spacing modes of the spec's gap-resolution example:
`default{base:8, min:4}` and `small{base:4, min:2}`. -/
def smsW : List SpacingMode :=
  [{ name := "default", isDefault := true,
     tokens := { unit := "px", base := 8, min := 4, range := 3 } },
   { name := "small",
     tokens := { unit := "px", base := 4, min := 2, range := 3 } }]

/-- The spec example's gap mode named `small` with `{s: 1}` and no explicit
`spacingMode`. -/
def gmW : GapMode :=
  { name := "small", tokens := { vals := [("s", .num 1)] } }

/-- The `small` spacing mode of the example, standing alone as the chosen
spacing mode. -/
def smW : SpacingMode :=
  { name := "small", tokens := { unit := "px", base := 4, min := 2, range := 3 } }

/-- A border-radius mode exercising the explicit `spacingMode` field. -/
def rmW : RadiusMode :=
  { name := "round", tokens := { spacingMode := some "small",
                                 vals := [("s", .num 2), ("max", .smin)] } }

/-- A color family whose default mode has its own alpha schedule (level `d`)
while the family-level schedule has level `f`; the override mode `dark` has
no schedule of its own. -/
def c4colors : ColorsFamily :=
  { alphaSchedule := some [("f", 1 / 4)],
    modes := [{ name := "light", isDefault := true,
                tokens := [("bg", some { mode := "oklch", l := 49 / 50, c := 0, h := 0 })],
                alphaSchedule := some [("d", 3 / 4)] },
              { name := "dark",
                tokens := [("bg", some { mode := "oklch", l := 3 / 20, c := 0, h := 0 })] }] }

/-- A configuration whose override mode name `dark` occurs in the color
family and in the spacing family alike, so `dark` lands in both the color
and the size override lists of the generated IR. -/
def c5cfg : PartialDesignSystem :=
  { colors := some { modes := [{ name := "light", isDefault := true,
                                 tokens := [("bg", some { mode := "oklch", l := 49 / 50, c := 0, h := 0 })] },
                               { name := "dark",
                                 tokens := [("bg", some { mode := "oklch", l := 3 / 20, c := 0, h := 0 })] }] },
    spacing := some { modes := [{ name := "default", isDefault := true,
                                  tokens := { unit := "px", base := 8, min := 4, range := 1 } },
                                { name := "dark",
                                  tokens := { unit := "px", base := 4, min := 2, range := 1 } }] } }

/-- The IR `generate` produces for `c5cfg` (total extraction; `c5cfg`
validates, so the fallback branch is never taken). -/
def c5ir : IR :=
  match generate c5cfg none with
  | .ok ir => ir
  | .error _ =>
    { tokens := [], overrideTokens := [],
      modes := { color := { default := "", overrides := [] },
                 size := { default := "", overrides := [] },
                 time := { default := "", overrides := [] } } }

/-- A validation-accepted color family whose emitted token names collide:
the color named `bg-a-lo` produces the base token `clr-bg-a-lo`, which is
also the alpha-variant name of the color `bg` at level `lo`. -/
def c9colors : ColorsFamily :=
  { alphaSchedule := some [("lo", 1 / 2)],
    modes := [{ name := "default", isDefault := true,
                tokens := [("bg", some { mode := "oklch", l := 1 / 4, c := 0, h := 0 }),
                           ("bg-a-lo", some { mode := "oklch", l := 3 / 4, c := 0, h := 0 })] }] }

/-- The colliding color family as a full configuration. -/
def c9cfg : PartialDesignSystem := { colors := some c9colors }

/-- The bad-range condition of the validation-boundary claim: the
configuration contains a spacing mode whose `range` is 0, negative, or not
an integer. -/
def hasBadSpacingRange (ds : PartialDesignSystem) : Prop :=
  ∃ sf, ds.spacing = some sf ∧ ∃ m ∈ sf.modes,
    m.tokens.range = 0 ∨ m.tokens.range < 0 ∨ m.tokens.range.den ≠ 1

/-- The bad-alpha condition of the validation-boundary claim: some alpha
schedule entry (family-level or mode-level) has a value outside [0, 1]. -/
def hasBadAlphaEntry (ds : PartialDesignSystem) : Prop :=
  ∃ cf, ds.colors = some cf ∧
    ((∃ s, cf.alphaSchedule = some s ∧ ∃ lv ∈ s, lv.2 < 0 ∨ 1 < lv.2)
      ∨ (∃ m ∈ cf.modes, ∃ s, m.alphaSchedule = some s ∧ ∃ lv ∈ s, lv.2 < 0 ∨ 1 < lv.2))

/-- A design system containing a spacing mode with `range: 0` (otherwise
valid), used to witness the validation boundary. -/
def c8cfg : PartialDesignSystem :=
  { spacing := some { modes := [{ name := "default", isDefault := true,
                                  tokens := { unit := "px", base := 8, min := 4, range := 0 } }] } }

/-- The time family of the spec's example: a default `default` mode and a
non-default `anim` mode. -/
def tfW : TimeFamily :=
  { modes := [{ name := "default", isDefault := true,
                tokens := { unit := "ms", base := 100, min := 50, range := 2 } },
              { name := "anim",
                tokens := { unit := "ms", base := 1000, min := 500, range := 2 } }] }

/-- The typography mode of the spec's example:
`base=0.875, increment=0.125, min=0.625, range=3` in `rem`. -/
def tmW : TypographyMode :=
  { name := "default", isDefault := true,
    tokens := { unit := "rem", base := 7 / 8, min := 5 / 8, increment := 1 / 8, range := 3 } }

/-!  Helper lemmas. -/

theorem exceptBindOk {α β : Type} {x : Except String α} {f : α → Except String β}
    {b : β} (h : x >>= f = .ok b) : ∃ a, x = .ok a ∧ f a = .ok b := by
  cases x with
  | ok a => exact ⟨a, rfl, h⟩
  | error e => simp [Bind.bind, Except.bind] at h

theorem listFlatMapCongr {l : List α} {f g : α → List β}
    (h : ∀ x ∈ l, f x = g x) : l.flatMap f = l.flatMap g := by
  induction l with
  | nil => rfl
  | cons x xs ih =>
    simp only [List.flatMap_cons]
    rw [h x (by simp), ih (fun y hy => h y (by simp [hy]))]

theorem listMapCongr {l : List α} {f g : α → β}
    (h : ∀ x ∈ l, f x = g x) : l.map f = l.map g := by
  induction l with
  | nil => rfl
  | cons x xs ih =>
    simp only [List.map_cons]
    rw [h x (by simp), ih (fun y hy => h y (by simp [hy]))]

theorem loopCount_natCast (r : Nat) : loopCount (r : ℚ) = r := by
  unfold loopCount
  rcases Nat.eq_zero_or_pos r with hr | hr
  · subst hr; simp
  · have h1 : ¬ ((r : ℚ) < 1) := by
      push_neg
      exact_mod_cast Nat.one_le_iff_ne_zero.mpr (Nat.pos_iff_ne_zero.mp hr)
    rw [if_neg h1]
    rw [Int.floor_natCast]
    exact Int.toNat_natCast r

theorem loopIdx_natCast (r : Nat) : loopIdx (r : ℚ) = (List.range r).map (fun j => j + 1) := by
  unfold loopIdx
  rw [loopCount_natCast]

theorem dropWhileHeadFalse (p : α → Bool) :
    ∀ (l : List α) (c : α), (l.dropWhile p).head? = some c → p c = false := by
  intro l
  induction l with
  | nil => intro c h; simp [List.dropWhile] at h
  | cons x xs ih =>
    intro c h
    by_cases hp : p x = true
    · rw [List.dropWhile_cons_of_pos hp] at h
      exact ih c h
    · rw [List.dropWhile_cons_of_neg hp] at h
      simp at h
      subst h
      exact Bool.not_eq_true _ |>.mp hp

theorem recInsertNotMem {r : List (String × α)} {k : String} {v : α}
    (h : r.any (fun p => p.1 == k) = false) : recInsert r k v = r ++ [(k, v)] := by
  simp [recInsert, h]

theorem foldlRecInsertAppend (tokens : List Token) :
    ∀ acc : List (String × Token),
      (∀ t ∈ tokens, ∀ p ∈ acc, p.1 ≠ t.name) →
      (tokens.map Token.name).Nodup →
      tokens.foldl (fun record t => recInsert record t.name t) acc
        = acc ++ tokens.map (fun t => (t.name, t)) := by
  induction tokens with
  | nil => simp
  | cons t rest ih =>
    intro acc hdisj hnodup
    have hany : acc.any (fun p => p.1 == t.name) = false := by
      rw [List.any_eq_false]
      intro p hp
      simp only [beq_iff_eq]
      exact hdisj t (by simp) p hp
    rw [List.foldl_cons, recInsertNotMem hany]
    rw [List.map_cons, List.nodup_cons] at hnodup
    rw [ih (acc ++ [(t.name, t)])
      (by
        intro u hu p hp
        rcases List.mem_append.mp hp with hp1 | hp2
        · exact hdisj u (by simp [hu]) p hp1
        · have : p = (t.name, t) := by simpa using hp2
          subst this
          intro hne
          have hne2 : t.name = u.name := hne
          have hmem : u.name ∈ rest.map Token.name := List.mem_map_of_mem Token.name hu
          rw [← hne2] at hmem
          exact hnodup.1 hmem)
      hnodup.2]
    simp

theorem validateAlphaLevelsOk {path : String} {s : AlphaSchedule}
    (h : validateAlphaLevels path s = .ok ()) :
    ∀ lv ∈ s, 0 ≤ lv.2 ∧ lv.2 ≤ 1 := by
  induction s with
  | nil => simp
  | cons lv rest ih =>
    intro x hx
    by_cases hc : lv.2 < 0 ∨ lv.2 > 1
    · simp [validateAlphaLevels, hc] at h
    · rw [validateAlphaLevels, if_neg hc] at h
      push_neg at hc
      rcases List.mem_cons.mp hx with hx | hx
      · exact hx ▸ ⟨hc.1, hc.2⟩
      · exact ih h x hx

theorem validateAlphaScheduleOk {s : AlphaSchedule} {path : String}
    (h : validateAlphaSchedule s path = .ok ()) :
    ∀ lv ∈ s, 0 ≤ lv.2 ∧ lv.2 ≤ 1 := by
  unfold validateAlphaSchedule at h
  by_cases he : s.isEmpty
  · simp [he] at h
  · rw [if_neg he] at h
    exact validateAlphaLevelsOk h

theorem validateSpacingModesOk :
    ∀ {i : Nat} {ms : List SpacingMode}, validateSpacingModes i ms = .ok () →
      ∀ m ∈ ms, 1 ≤ m.tokens.range ∧ m.tokens.range.den = 1 := by
  intro i ms
  induction ms generalizing i with
  | nil => simp
  | cons m rest ih =>
    intro h x hx
    unfold validateSpacingModes at h
    split_ifs at h with h1 h2 h3 h4 h5
    have h5' := h5
    push_neg at h5'
    rcases List.mem_cons.mp hx with hx | hx
    · subst hx
      exact ⟨le_of_not_lt (fun hlt => h5 (Or.inl hlt)), h5'.2⟩
    · exact ih h x hx

theorem validateColorModeSchedulesOk {ms : List ColorMode}
    (h : validateColorModeSchedules ms = .ok ()) :
    ∀ m ∈ ms, ∀ s, m.alphaSchedule = some s → ∀ lv ∈ s, 0 ≤ lv.2 ∧ lv.2 ≤ 1 := by
  induction ms with
  | nil => simp
  | cons m rest ih =>
    intro x hx s hs lv hlv
    unfold validateColorModeSchedules at h
    rcases hm : m.alphaSchedule with _ | s0
    · rw [hm] at h
      rcases List.mem_cons.mp hx with hx | hx
      · subst hx; rw [hm] at hs; cases hs
      · exact ih h x hx s hs lv hlv
    · rw [hm] at h
      obtain ⟨u, hu, hrest⟩ := exceptBindOk h
      cases u
      rcases List.mem_cons.mp hx with hx | hx
      · subst hx
        rw [hm] at hs
        obtain rfl : s0 = s := by injection hs
        exact validateAlphaScheduleOk hu lv hlv
      · exact ih hrest x hx s hs lv hlv

theorem validateColorsFamOk {c : ColorsFamily} (h : validateColorsFam c = .ok ()) :
    (∀ s, c.alphaSchedule = some s → ∀ lv ∈ s, 0 ≤ lv.2 ∧ lv.2 ≤ 1)
    ∧ (∀ m ∈ c.modes, ∀ s, m.alphaSchedule = some s → ∀ lv ∈ s, 0 ≤ lv.2 ∧ lv.2 ≤ 1) := by
  unfold validateColorsFam at h
  by_cases he : c.modes.isEmpty
  · simp [he, Bind.bind, Except.bind, throw, throwThe, MonadExceptOf.throw] at h
  · rw [if_neg he] at h
    simp only [pure_bind] at h
    obtain ⟨u1, _, h2⟩ := exceptBindOk h
    cases u1
    constructor
    · intro s hs
      rw [hs] at h2
      obtain ⟨u2, h3, _⟩ := exceptBindOk h2
      cases u2
      exact validateAlphaScheduleOk h3
    · rcases hcs : c.alphaSchedule with _ | s0
      · rw [hcs] at h2
        exact validateColorModeSchedulesOk h2
      · rw [hcs] at h2
        obtain ⟨u2, _, h4⟩ := exceptBindOk h2
        cases u2
        exact validateColorModeSchedulesOk h4

theorem validateSpacingFamOk {s : SpacingFamily} (h : validateSpacingFam s = .ok ()) :
    ∀ m ∈ s.modes, 1 ≤ m.tokens.range ∧ m.tokens.range.den = 1 := by
  unfold validateSpacingFam at h
  by_cases he : s.modes.isEmpty
  · simp [he, Bind.bind, Except.bind, throw, throwThe, MonadExceptOf.throw] at h
  · rw [if_neg he] at h
    simp only [pure_bind] at h
    exact validateSpacingModesOk h

theorem vseqOk {a b : Except String Unit} (h : vseq a b = .ok ()) :
    a = .ok () ∧ b = .ok () := by
  cases a with
  | ok u => cases u; exact ⟨rfl, h⟩
  | error e => simp [vseq] at h

theorem validateOkFamilies {ds : PartialDesignSystem}
    (h : validatePartialDesignSystem ds = .ok ()) :
    (∀ c, ds.colors = some c → validateColorsFam c = .ok ())
    ∧ (∀ s, ds.spacing = some s → validateSpacingFam s = .ok ()) := by
  unfold validatePartialDesignSystem at h
  split_ifs at h
  obtain ⟨hcolors, h⟩ := vseqOk h
  obtain ⟨hspacing, h⟩ := vseqOk h
  constructor
  · intro c hc
    rw [hc] at hcolors
    exact hcolors
  · intro s hs
    rw [hs] at hspacing
    exact hspacing

theorem generateErrorOfValidate {ds : PartialDesignSystem}
    {ucfg : Option UserGeneratorConfig} {e : String}
    (h : validatePartialDesignSystem ds = .error e) :
    generate ds ucfg = .error e := by
  unfold generate
  rw [h]
  rfl

/-!  Claim theorems. -/

/-- C1: for the input configuration
`{spacing: {modes: [{name: "default", isDefault: true,
tokens: {unit: "px", base: 8, min: 4, range: 2}}]}}` with default options,
`generate` returns an IR whose tokens map is exactly
`{sp-min: "4px", sp-1: "8px", sp-2: "16px"}` in that order, and `toCss` on
that IR with default options returns exactly the string
`":root \x7b\n  --sp-min: 4px;\n  --sp-1: 8px;\n  --sp-2: 16px;\n\x7d"`. -/
theorem spacing_end_to_end :
    (generate c1cfg none).map
        (fun ir => (ir.tokens.map (fun p => (p.1, p.2.value)), toCss ir none))
      = Except.ok ([("sp-min", "4px"), ("sp-1", "8px"), ("sp-2", "16px")],
          ":root \x7b\n  --sp-min: 4px;\n  --sp-1: 8px;\n  --sp-2: 16px;\n\x7d") := by
  decide

/-- C10: calling `generate` with a configuration in which all seven token
families are absent always throws the `ValidationError`
"At least one token family must be provided" (for any user options),
rather than returning an empty IR. -/
theorem at_least_one_family (ucfg : Option UserGeneratorConfig) :
    generate {} ucfg = Except.error "At least one token family must be provided" :=
  generateErrorOfValidate rfl

/-- C8: a configuration containing a spacing mode whose `range` is 0,
negative, or not an integer, or containing an alpha schedule entry with a
value outside [0, 1], makes `generate` raise a validation error; no IR is
returned. -/
theorem validation_boundary (ds : PartialDesignSystem)
    (ucfg : Option UserGeneratorConfig)
    (hbad : hasBadSpacingRange ds ∨ hasBadAlphaEntry ds) :
    ∃ msg, generate ds ucfg = Except.error msg := by
  cases hv : validatePartialDesignSystem ds with
  | error e => exact ⟨e, generateErrorOfValidate hv⟩
  | ok u =>
    cases u
    exfalso
    obtain ⟨hcolors, hspacing⟩ := validateOkFamilies hv
    rcases hbad with ⟨sf, hsf, m, hm, hbadm⟩ | ⟨cf, hcf, hbadc⟩
    · have hgood := validateSpacingFamOk (hspacing sf hsf) m hm
      rcases hbadm with h0 | hneg | hden
      · rw [h0] at hgood
        exact absurd hgood.1 (by norm_num)
      · linarith [hgood.1]
      · exact hden hgood.2
    · obtain ⟨hfam, hmodes⟩ := validateColorsFamOk (hcolors cf hcf)
      rcases hbadc with ⟨s, hsch, lv, hlv, hout⟩ | ⟨m, hm, s, hms, lv, hlv, hout⟩
      · have hgood := hfam s hsch lv hlv
        rcases hout with h1 | h1 <;> linarith [hgood.1, hgood.2]
      · have hgood := hmodes m hm s hms lv hlv
        rcases hout with h1 | h1 <;> linarith [hgood.1, hgood.2]

/-- Witness for C8: the concrete configuration `c8cfg` (spacing `range: 0`)
satisfies the bad-range hypothesis and `generate` rejects it. -/
theorem validation_boundary_witness :
    (hasBadSpacingRange c8cfg ∨ hasBadAlphaEntry c8cfg)
    ∧ ∃ msg, generate c8cfg none = Except.error msg := by
  have hbad : hasBadSpacingRange c8cfg ∨ hasBadAlphaEntry c8cfg := by
    left
    refine ⟨_, rfl, ?_⟩
    refine ⟨{ name := "default", isDefault := true,
              tokens := { unit := "px", base := 8, min := 4, range := 0 } },
            by decide, Or.inl (by decide)⟩
  exact ⟨hbad, validation_boundary c8cfg none hbad⟩

/-- C3: for a color mode whose token map defines `k` colors (entries with a
defined value) under an applicable alpha schedule of `m` levels, the color
generator emits exactly `k * (1 + m)` tokens; an undefined color entry
yields zero tokens for that name and does not throw (removing the undefined
entries leaves the output unchanged, and the generator is total). -/
theorem color_alpha_expansion (m : ColorMode) (sched : AlphaSchedule)
    (config : GeneratorConfig) :
    (generateColorTokensForMode m (some sched) config).length
      = (m.tokens.countP (fun p => p.2.isSome)) * (1 + sched.length)
    ∧ generateColorTokensForMode m (some sched) config
        = generateColorTokensForMode
            { m with tokens := m.tokens.filter (fun p => p.2.isSome) } (some sched) config := by
  obtain ⟨nm, hd, toks, sch⟩ := m
  constructor
  · simp only [generateColorTokensForMode]
    induction toks with
    | nil => simp
    | cons p rest ih =>
      rcases p with ⟨k, _ | c⟩
      · simpa using ih
      · simp only [List.flatMap_cons, List.countP_cons, List.length_append,
          List.length_cons, List.length_map, ih]
        simp
        try ring
  · simp only [generateColorTokensForMode]
    induction toks with
    | nil => simp
    | cons p rest ih =>
      rcases p with ⟨k, _ | c⟩
      · simpa using ih
      · simp only [List.filter_cons, Option.isSome_some, if_true, List.flatMap_cons, ih]

/-- C9 (amended): token records whose names are pairwise distinct survive
`tokensToRecord` unchanged — the flat `tokens` map and each per-mode
override map lose no record when no names collide. (Validation does not
guarantee distinctness: see the counterexample.) -/
theorem scope_name_uniqueness (tokens : List Token)
    (h : (tokens.map Token.name).Nodup) :
    tokensToRecord tokens = tokens.map (fun t => (t.name, t)) := by
  have happ := foldlRecInsertAppend tokens [] (by simp) h
  simpa [tokensToRecord] using happ

/-- Witness for C9: the spacing tokens of the end-to-end example have
pairwise distinct names, so their record keeps all of them. -/
theorem scope_name_uniqueness_witness :
    ((generateSpacingTokensForMode
        { name := "default", isDefault := true,
          tokens := { unit := "px", base := 8, min := 4, range := 2 } }
        defaultGeneratorConfig).map Token.name).Nodup
    ∧ tokensToRecord (generateSpacingTokensForMode
        { name := "default", isDefault := true,
          tokens := { unit := "px", base := 8, min := 4, range := 2 } }
        defaultGeneratorConfig)
      = (generateSpacingTokensForMode
          { name := "default", isDefault := true,
            tokens := { unit := "px", base := 8, min := 4, range := 2 } }
          defaultGeneratorConfig).map (fun t => (t.name, t)) :=
  ⟨by decide, scope_name_uniqueness _ (by decide)⟩

/-- Counterexample to C9 as stated: the validation-accepted configuration
`c9cfg` (a color named `bg-a-lo` next to `bg` with alpha level `lo`) emits
four default-scope tokens of which two share the name `clr-bg-a-lo`, and
the IR's flat tokens map keeps only three records. -/
theorem scope_name_uniqueness_cex :
    (generateColorTokens c9colors defaultGeneratorConfig).map
        (fun r => r.defaultTokens.map Token.name)
      = some ["clr-bg", "clr-bg-a-lo", "clr-bg-a-lo", "clr-bg-a-lo-a-lo"]
    ∧ (generate c9cfg none).map (fun ir => ir.tokens.length) = Except.ok 3 := by
  decide

/-- C5 (amended): for every IR, an override-token entry is categorized by
the first category — color, then size, then time — whose override list
contains its mode name, and its block renders under that category's
selector template. Hence a mode in the color override list never renders
under the size or time template; a mode in the size list renders under the
size template unless it also belongs to the color list (`generate` can put
one name in several categories); and a mode name absent from all three
lists produces no block at all, without throwing. -/
theorem mode_category_isolation (ir : IR) (config : CssSelectors) (m : String)
    (toks : List (String × Token)) (cat : ModeCategory)
    (hm : (m, toks) ∈ ir.overrideTokens) :
    (ir.modes.color.overrides.contains m = true →
      getModeCategory m ir = some ModeCategory.color)
    ∧ (ir.modes.color.overrides.contains m = false →
        ir.modes.size.overrides.contains m = true →
        getModeCategory m ir = some ModeCategory.size)
    ∧ (ir.modes.color.overrides.contains m = false →
        ir.modes.size.overrides.contains m = false →
        ir.modes.time.overrides.contains m = true →
        getModeCategory m ir = some ModeCategory.time)
    ∧ (ir.modes.color.overrides.contains m = false →
        ir.modes.size.overrides.contains m = false →
        ir.modes.time.overrides.contains m = false →
        overrideBlock ir config (m, toks) = none)
    ∧ (getModeCategory m ir = some cat →
        overrideBlock ir config (m, toks)
          = if (formatTokensAsCss toks).length > 0 then
              some (getSelectorForMode m cat config ++ " \x7b\n"
                ++ String.intercalate "\n" (formatTokensAsCss toks) ++ "\n\x7d")
            else none) := by
  refine ⟨?_, ?_, ?_, ?_, ?_⟩
  · intro h1
    simp at h1
    simp [getModeCategory, h1]
  · intro h1 h2
    simp at h1 h2
    simp [getModeCategory, h1, h2]
  · intro h1 h2 h3
    simp at h1 h2 h3
    simp [getModeCategory, h1, h2, h3]
  · intro h1 h2 h3
    simp at h1 h2 h3
    simp [overrideBlock, getModeCategory, h1, h2, h3]
  · intro hcat
    simp [overrideBlock, hcat]

/-- Counterexample to C5 as stated: in the IR generated from `c5cfg` the
mode name `dark` sits in the size override list (and in the color list),
yet `toCss` renders its combined block — the spacing tokens `--sp-min` and
`--sp-1` included — under the color selector template
`[data-color-mode="dark"]`, and no size-template block exists. -/
theorem mode_category_isolation_cex :
    c5ir.modes.size.overrides = ["dark"]
    ∧ getModeCategory "dark" c5ir = some ModeCategory.color
    ∧ toCssBlocks c5ir (mergeCssConfig none)
        = [":root \x7b\n  --clr-bg: oklch(0.98 0 0);\n  --sp-min: 4px;\n  --sp-1: 8px;\n\x7d",
           "[data-color-mode=\"dark\"] \x7b\n  --clr-bg: oklch(0.15 0 0);\n  --sp-min: 2px;\n  --sp-1: 4px;\n\x7d"] := by
  decide

/-- Witness for C5 (amended), at the concrete IR of `c5cfg`, its `dark`
override entry, and the color category. -/
theorem mode_category_isolation_witness :
    (("dark", (recFind c5ir.overrideTokens "dark").getD []) ∈ c5ir.overrideTokens)
    ∧ ((c5ir.modes.color.overrides.contains "dark" = true →
          getModeCategory "dark" c5ir = some ModeCategory.color)
      ∧ (c5ir.modes.color.overrides.contains "dark" = false →
          c5ir.modes.size.overrides.contains "dark" = true →
          getModeCategory "dark" c5ir = some ModeCategory.size)
      ∧ (c5ir.modes.color.overrides.contains "dark" = false →
          c5ir.modes.size.overrides.contains "dark" = false →
          c5ir.modes.time.overrides.contains "dark" = true →
          getModeCategory "dark" c5ir = some ModeCategory.time)
      ∧ (c5ir.modes.color.overrides.contains "dark" = false →
          c5ir.modes.size.overrides.contains "dark" = false →
          c5ir.modes.time.overrides.contains "dark" = false →
          overrideBlock c5ir defaultSelectors
            ("dark", (recFind c5ir.overrideTokens "dark").getD []) = none)
      ∧ (getModeCategory "dark" c5ir = some ModeCategory.color →
          overrideBlock c5ir defaultSelectors
              ("dark", (recFind c5ir.overrideTokens "dark").getD [])
            = if (formatTokensAsCss ((recFind c5ir.overrideTokens "dark").getD [])).length > 0 then
                some (getSelectorForMode "dark" ModeCategory.color defaultSelectors ++ " \x7b\n"
                  ++ String.intercalate "\n"
                    (formatTokensAsCss ((recFind c5ir.overrideTokens "dark").getD [])) ++ "\n\x7d")
              else none)) :=
  ⟨by decide,
   mode_category_isolation c5ir defaultSelectors "dark"
     ((recFind c5ir.overrideTokens "dark").getD []) ModeCategory.color (by decide)⟩

/-- C4 (amended): the schedule applied to a color mode is the mode's own
schedule when present; otherwise the default mode receives the family-level
schedule, while an override mode receives the default mode's *resolved*
schedule (the default mode's own schedule when present, else the
family-level one). When no schedule results, alpha variants are skipped
entirely while the base color tokens are still emitted (`m2` exhibits the
no-schedule behavior for an arbitrary mode). -/
theorem color_alpha_fallback (colors : ColorsFamily) (config : GeneratorConfig)
    (dm m2 : ColorMode)
    (hdm : getDefaultMode? (fun m => m.isDefault) colors.modes = some dm) :
    generateColorTokens colors config = some
      { defaultTokens := generateColorTokensForMode dm
          (match dm.alphaSchedule with
           | some s => some s
           | none => colors.alphaSchedule) config,
        overrideTokens := (overridesOf (fun m => m.isDefault) colors.modes).foldl
          (fun acc m =>
            if m.tokens.length > 0 then
              recInsert acc m.name (generateColorTokensForMode m
                (match m.alphaSchedule with
                 | some s => some s
                 | none =>
                   match dm.alphaSchedule with
                   | some s => some s
                   | none => colors.alphaSchedule) config)
            else acc) [],
        modeInfo := { default := dm.name,
                      overrides := (overridesOf (fun m => m.isDefault) colors.modes).map
                        (fun m => m.name) } }
    ∧ generateColorTokensForMode m2 none config
        = m2.tokens.filterMap (fun p => p.2.map (fun color =>
            { family := "color", name := config.prefixes.color ++ "-" ++ p.1,
              value := formatColor color config.colorFormat.base,
              baseColor := some p.1 })) := by
  constructor
  · simp only [generateColorTokens, hdm]
    rfl
  · obtain ⟨nm, hd, toks, sch⟩ := m2
    simp only [generateColorTokensForMode]
    induction toks with
    | nil => rfl
    | cons p rest ih =>
      rcases p with ⟨k, _ | c⟩
      · simpa using ih
      · simp only [List.flatMap_cons, List.filterMap_cons, Option.map_some, ih]
        rfl

/-- Witness for C4 (amended), at the `c4colors` family and an override mode
with an undefined entry. -/
theorem color_alpha_fallback_witness :
    (getDefaultMode? (fun m => m.isDefault) c4colors.modes
      = some { name := "light", isDefault := true,
               tokens := [("bg", some { mode := "oklch", l := 49 / 50, c := 0, h := 0 })],
               alphaSchedule := some [("d", 3 / 4)] })
    ∧ generateColorTokens c4colors defaultGeneratorConfig = some
        { defaultTokens := generateColorTokensForMode
            { name := "light", isDefault := true,
              tokens := [("bg", some { mode := "oklch", l := 49 / 50, c := 0, h := 0 })],
              alphaSchedule := some [("d", 3 / 4)] }
            (match (some [("d", (3 : ℚ) / 4)] : Option AlphaSchedule) with
             | some s => some s
             | none => c4colors.alphaSchedule) defaultGeneratorConfig,
          overrideTokens := (overridesOf (fun m => m.isDefault) c4colors.modes).foldl
            (fun acc m =>
              if m.tokens.length > 0 then
                recInsert acc m.name (generateColorTokensForMode m
                  (match m.alphaSchedule with
                   | some s => some s
                   | none =>
                     match (some [("d", (3 : ℚ) / 4)] : Option AlphaSchedule) with
                     | some s => some s
                     | none => c4colors.alphaSchedule) defaultGeneratorConfig)
              else acc) [],
          modeInfo := { default := "light",
                        overrides := (overridesOf (fun m => m.isDefault) c4colors.modes).map
                          (fun m => m.name) } }
    ∧ generateColorTokensForMode
          { name := "hole", tokens := [("bg", none)] } none defaultGeneratorConfig
        = ([("bg", (none : Option Color))]).filterMap (fun p => p.2.map (fun color =>
            { family := "color", name := defaultGeneratorConfig.prefixes.color ++ "-" ++ p.1,
              value := formatColor color defaultGeneratorConfig.colorFormat.base,
              baseColor := some p.1 })) := by
  refine ⟨by decide, ?_⟩
  exact color_alpha_fallback c4colors defaultGeneratorConfig
    { name := "light", isDefault := true,
      tokens := [("bg", some { mode := "oklch", l := 49 / 50, c := 0, h := 0 })],
      alphaSchedule := some [("d", 3 / 4)] }
    { name := "hole", tokens := [("bg", none)] }
    (by decide)

/-- Counterexample to C4 as stated: in `c4colors` the family-level schedule
is `{f: 0.25}` and the override mode `dark` has no schedule of its own, yet
its alpha variant is `clr-bg-a-d` with raw value `0.75` — the default
mode's schedule — and no `clr-bg-a-f` token is emitted. -/
theorem color_alpha_fallback_cex :
    c4colors.alphaSchedule = some [("f", 1 / 4)]
    ∧ (c4colors.modes.get? 1).map (fun m => m.alphaSchedule) = some none
    ∧ (generateColorTokens c4colors defaultGeneratorConfig).map
        (fun r => r.overrideTokens.map (fun p =>
          (p.1, p.2.map (fun t => (t.name, t.rawValue)))))
      = some [("dark", [("clr-bg", none), ("clr-bg-a-d", some ((3 : ℚ) / 4))])] := by
  decide

/-- C6: the time generator flattens every mode, default and non-default
alike, into the single default token list — named and valued as
`specTimeTokens` describes (`{t}-min`/`{t}-{i}` for the default mode,
`{t}-{modeName}-min`/`{t}-{modeName}-{i}` otherwise, values `base * i`) —
and returns empty `overrideTokens` and an empty `modeInfo.overrides` list,
so no per-mode override block can ever be produced for time. -/
theorem time_flattening (time : TimeFamily) (config : GeneratorConfig)
    (dm : TimeMode)
    (hdm : getDefaultMode? (fun m => m.isDefault) time.modes = some dm) :
    generateTimeTokens time config = some
      { defaultTokens := specTimeTokens time config,
        overrideTokens := [],
        modeInfo := { default := dm.name, overrides := [] } } := by
  have hflat : time.modes.enum.flatMap
      (fun p => generateTimeTokensForMode p.2
        (p.1 == defaultIdx (fun m => m.isDefault) time.modes) config)
      = specTimeTokens time config := by
    unfold specTimeTokens
    apply listFlatMapCongr
    intro p _
    by_cases hpe : p.1 = defaultIdx (fun m => m.isDefault) time.modes
    · simp [generateTimeTokensForMode, hpe]
    · have hb : (p.1 == defaultIdx (fun m => m.isDefault) time.modes) = false := by
        simp [hpe]
      simp [generateTimeTokensForMode, hb, hpe]
  simp only [generateTimeTokens, hdm, hflat]

/-- Witness for C6, at the two-mode time family `tfW`. -/
theorem time_flattening_witness :
    (getDefaultMode? (fun m => m.isDefault) tfW.modes
      = some { name := "default", isDefault := true,
               tokens := { unit := "ms", base := 100, min := 50, range := 2 } })
    ∧ generateTimeTokens tfW defaultGeneratorConfig = some
        { defaultTokens := specTimeTokens tfW defaultGeneratorConfig,
          overrideTokens := [],
          modeInfo := { default := "default", overrides := [] } } :=
  ⟨by decide,
   time_flattening tfW defaultGeneratorConfig
     { name := "default", isDefault := true,
       tokens := { unit := "ms", base := 100, min := 50, range := 2 } }
     (by decide)⟩

/-- C7: for a typography mode with positive `base` and `increment` and
positive integer range `r`, the generator emits `fs-min` at raw value `min`,
`fs-1` at raw value exactly `base`, and `fs-n` at `base + increment*(n-1)`
for `1 < n ≤ r` (the token list equals `specTypographyTokens`, whose entry
`j` carries `base + increment*j` for `n = j+1`); formatted values go
through `formatNumber`, which strips trailing insignificant zeros — the
stripped fractional digits never end in `'0'` (shown for the arbitrary
`fp`), and `1.0` renders as `"1"`. -/
theorem typography_scale (m : TypographyMode) (config : GeneratorConfig)
    (r fp : Nat) (hb : 0 < m.tokens.base) (hinc : 0 < m.tokens.increment)
    (hr : m.tokens.range = (r : ℚ)) (hr1 : 1 ≤ r) :
    generateTypographyTokensForMode m config = specTypographyTokens m config r
    ∧ formatNumber 1 = "1"
    ∧ (strippedFrac fp = [] ∨ ¬ (strippedFrac fp).getLast? = some '0') := by
  refine ⟨?_, by decide, ?_⟩
  · simp only [generateTypographyTokensForMode, specTypographyTokens]
    rw [hr, loopIdx_natCast, List.map_map]
    refine congrArg (List.cons _) ?_
    apply listMapCongr
    intro j _
    rcases Nat.eq_zero_or_pos j with hj0 | hjpos
    · subst hj0
      have harith : m.tokens.base + m.tokens.increment * ((0 : Nat) : ℚ) = m.tokens.base := by
        push_cast
        ring
      simp [Function.comp, harith]
    · have hj1 : (j + 1 == 1) = false := by
        simp
        omega
      have harith : m.tokens.base + m.tokens.increment * (((j + 1 : Nat) : ℚ) - 1)
          = m.tokens.base + m.tokens.increment * ((j : Nat) : ℚ) := by
        push_cast
        ring
      simp only [Function.comp, hj1, Bool.false_eq_true, if_false]
      rw [harith]
  · unfold strippedFrac
    cases hh : (pad4 fp).reverse.dropWhile (fun c => c == '0') with
    | nil => left; rfl
    | cons c cs =>
      right
      rw [List.getLast?_reverse]
      have hc : (fun c => c == '0') c = false := by
        apply dropWhileHeadFalse (fun c => c == '0') ((pad4 fp).reverse)
        rw [hh]
        rfl
      simp only [List.head?_cons, Option.some_inj]
      intro hceq
      rw [hceq] at hc
      simp at hc

/-- Witness for C7, at the spec's typography example (`tmW`, range 3). -/
theorem typography_scale_witness :
    (0 < tmW.tokens.base) ∧ (0 < tmW.tokens.increment)
    ∧ (tmW.tokens.range = ((3 : Nat) : ℚ)) ∧ (1 ≤ 3)
    ∧ (generateTypographyTokensForMode tmW defaultGeneratorConfig
          = specTypographyTokens tmW defaultGeneratorConfig 3
        ∧ formatNumber 1 = "1"
        ∧ (strippedFrac 0 = [] ∨ ¬ (strippedFrac 0).getLast? = some '0')) :=
  ⟨by decide, by decide, by decide, by decide,
   typography_scale tmW defaultGeneratorConfig 3 0
     (by decide) (by decide) (by decide) (by decide)⟩

theorem specResolveAgree (explicitName : Option String) (ownName : String)
    (sms : List SpacingMode) (hnames : ∀ m ∈ sms, m.name ≠ "") :
    (match (jsStr? explicitName).bind (fun n => sms.find? (fun m => m.name == n)) with
     | some m => some m
     | none =>
       match sms.find? (fun m => m.name == ownName) with
       | some m => some m
       | none => getDefaultMode? (fun m => m.isDefault) sms)
      = specResolveSpacingMode explicitName ownName sms := by
  rcases explicitName with _ | n
  · rfl
  · by_cases hn : n = ""
    · subst hn
      have hfind : sms.find? (fun m => m.name == "") = none := by
        rw [List.find?_eq_none]
        intro m hm
        simpa using hnames m hm
      simp [jsStr?, specResolveSpacingMode, hfind]
    · simp [jsStr?, hn, specResolveSpacingMode]

theorem findSpacingModeForGapSpec (gm : GapMode) (sms : List SpacingMode)
    (hnames : ∀ m ∈ sms, m.name ≠ "") :
    findSpacingModeForGap gm sms
      = specResolveSpacingMode gm.tokens.spacingMode gm.name sms := by
  unfold findSpacingModeForGap
  exact specResolveAgree _ _ _ hnames

theorem findSpacingModeForRadiusSpec (rm : RadiusMode) (sms : List SpacingMode)
    (hnames : ∀ m ∈ sms, m.name ≠ "") :
    findSpacingModeForRadius rm sms
      = specResolveSpacingMode rm.tokens.spacingMode rm.name sms := by
  unfold findSpacingModeForRadius
  exact specResolveAgree _ _ _ hnames

theorem gapTokensProj (gm : GapMode) (sm : SpacingMode) :
    (generateGapTokensForMode gm sm defaultGeneratorConfig).map
        (fun t => (t.name, t.rawValue, t.reference))
      = (gm.tokens.vals.filter (fun p => !isMetaProp p.1)).map
          (fun p => ("gap-" ++ p.1, some (specRefValue p.2 sm.tokens),
            some (specRefString p.2))) := by
  simp only [generateGapTokensForMode]
  generalize gm.tokens.vals = l
  induction l with
  | nil => rfl
  | cons p rest ih =>
    cases hmeta : isMetaProp p.1 with
    | true => simp [hmeta, ih]
    | false =>
      cases hv : p.2 with
      | smin =>
        simpa [hmeta, hv, specRefValue, resolveRefVal, specRefString, refString,
          defaultGeneratorConfig, show ("gap" : String) ++ "-" = "gap-" from rfl,
          show ("sp" : String) ++ "-min" = "sp-min" from rfl,
          show ("sp" : String) ++ "-" = "sp-" from rfl] using ih
      | num k =>
        simpa [hmeta, hv, specRefValue, resolveRefVal, specRefString, refString,
          defaultGeneratorConfig, show ("gap" : String) ++ "-" = "gap-" from rfl,
          show ("sp" : String) ++ "-min" = "sp-min" from rfl,
          show ("sp" : String) ++ "-" = "sp-" from rfl] using ih

theorem radiusTokensProj (rm : RadiusMode) (sm : SpacingMode) :
    (generateRadiusTokensForMode rm sm defaultGeneratorConfig).map
        (fun t => (t.name, t.rawValue, t.reference))
      = (rm.tokens.vals.filter (fun p => !isMetaProp p.1)).map
          (fun p => ("bdr-" ++ p.1, some (specRefValue p.2 sm.tokens),
            some (specRefString p.2))) := by
  simp only [generateRadiusTokensForMode]
  generalize rm.tokens.vals = l
  induction l with
  | nil => rfl
  | cons p rest ih =>
    cases hmeta : isMetaProp p.1 with
    | true => simp [hmeta, ih]
    | false =>
      cases hv : p.2 with
      | smin =>
        simpa [hmeta, hv, specRefValue, resolveRefVal, specRefString, refString,
          defaultGeneratorConfig, show ("bdr" : String) ++ "-" = "bdr-" from rfl,
          show ("sp" : String) ++ "-min" = "sp-min" from rfl,
          show ("sp" : String) ++ "-" = "sp-" from rfl] using ih
      | num k =>
        simpa [hmeta, hv, specRefValue, resolveRefVal, specRefString, refString,
          defaultGeneratorConfig, show ("bdr" : String) ++ "-" = "bdr-" from rfl,
          show ("sp" : String) ++ "-min" = "sp-min" from rfl,
          show ("sp" : String) ++ "-" = "sp-" from rfl] using ih

/-- C2: for a validated configuration (spacing modes named), the spacing
mode a gap mode — identically, a border-radius mode — resolves against is
the one `specResolveSpacingMode` describes (explicit `spacingMode` field
when such a spacing mode exists, else same-name match, else family
default); and against any chosen spacing mode `sm`, every key of the token
map other than `unit` and `spacingMode` yields exactly one token whose raw
value is `sm`'s `min` for the sentinel `"min"` and `k * base` for a number
`k`, recording the reference string `sp-min` or `sp-{k}`. -/
theorem gap_radius_spacing_resolution (gm : GapMode) (rm : RadiusMode)
    (sms : List SpacingMode) (sm smr : SpacingMode)
    (hnames : ∀ m ∈ sms, m.name ≠ "") :
    findSpacingModeForGap gm sms
      = specResolveSpacingMode gm.tokens.spacingMode gm.name sms
    ∧ findSpacingModeForRadius rm sms
      = specResolveSpacingMode rm.tokens.spacingMode rm.name sms
    ∧ (generateGapTokensForMode gm sm defaultGeneratorConfig).map
        (fun t => (t.name, t.rawValue, t.reference))
      = (gm.tokens.vals.filter (fun p => !isMetaProp p.1)).map
          (fun p => ("gap-" ++ p.1, some (specRefValue p.2 sm.tokens),
            some (specRefString p.2)))
    ∧ (generateRadiusTokensForMode rm smr defaultGeneratorConfig).map
        (fun t => (t.name, t.rawValue, t.reference))
      = (rm.tokens.vals.filter (fun p => !isMetaProp p.1)).map
          (fun p => ("bdr-" ++ p.1, some (specRefValue p.2 smr.tokens),
            some (specRefString p.2))) :=
  ⟨findSpacingModeForGapSpec gm sms hnames,
   findSpacingModeForRadiusSpec rm sms hnames,
   gapTokensProj gm sm,
   radiusTokensProj rm smr⟩

/-- Witness for C2, at the spec's example: spacing modes `default`/`small`,
the gap mode `small` with `{s: 1}`, and a radius mode with an explicit
`spacingMode` field. -/
theorem gap_radius_spacing_resolution_witness :
    (∀ m ∈ smsW, m.name ≠ "")
    ∧ (findSpacingModeForGap gmW smsW
          = specResolveSpacingMode gmW.tokens.spacingMode gmW.name smsW
        ∧ findSpacingModeForRadius rmW smsW
          = specResolveSpacingMode rmW.tokens.spacingMode rmW.name smsW
        ∧ (generateGapTokensForMode gmW smW defaultGeneratorConfig).map
            (fun t => (t.name, t.rawValue, t.reference))
          = (gmW.tokens.vals.filter (fun p => !isMetaProp p.1)).map
              (fun p => ("gap-" ++ p.1, some (specRefValue p.2 smW.tokens),
                some (specRefString p.2)))
        ∧ (generateRadiusTokensForMode rmW smW defaultGeneratorConfig).map
            (fun t => (t.name, t.rawValue, t.reference))
          = (rmW.tokens.vals.filter (fun p => !isMetaProp p.1)).map
              (fun p => ("bdr-" ++ p.1, some (specRefValue p.2 smW.tokens),
                some (specRefString p.2)))) :=
  ⟨by decide, gap_radius_spacing_resolution gmW rmW smsW smW smW (by decide)⟩

end TFS
